import Mathlib

/-!
Verification of the tenant subscription lifecycle and access-gating core of
the `service_mgt` repository.

The definitions below are a shallow embedding of the Python source:
`index/models.py` (ServiceCenter, PaymentTransaction, Subscription,
SubscriptionHistory), `index/views.py` (verify_payment_and_extend,
activate_subscription, check_access_permission), `index/middleware.py`
(SubscriptionAccessMiddleware) and
`index/management/commands/check_expired_subscriptions.py`.

Calendar dates are modelled as (year, month, day) triples compared
lexicographically, which matches Python `datetime.date` ordering; timestamps
carry a date plus a seconds-within-day component, matching `datetime.datetime`
ordering.  `dateutil.relativedelta(months=n)` is modelled by `Date.addMonths`
(single jump to the target month, day clamped to that month's length), and
`timedelta(days=n)` by `Date.addDays` (n successive calendar days).
-/

/-- A calendar date, as Python's `datetime.date`: (year, month, day). -/
structure Date where
  year : Nat
  month : Nat
  day : Nat
deriving DecidableEq

/-- A timestamp, as Python's `datetime.datetime`: a date plus seconds in day. -/
structure DateTime where
  date : Date
  sec : Nat
deriving DecidableEq

/-- Strict order on dates: Python `date` comparison is lexicographic. -/
def Date.lt (a b : Date) : Bool :=
  decide (a.year < b.year ∨ (a.year = b.year ∧
    (a.month < b.month ∨ (a.month = b.month ∧ a.day < b.day))))

/-- Non-strict order on dates. -/
def Date.le (a b : Date) : Bool :=
  decide (a.year < b.year ∨ (a.year = b.year ∧
    (a.month < b.month ∨ (a.month = b.month ∧ a.day ≤ b.day))))

/-- Strict order on timestamps: date first, then time of day. -/
def DateTime.lt (a b : DateTime) : Bool :=
  Date.lt a.date b.date || (a.date == b.date && decide (a.sec < b.sec))

/-- Non-strict order on timestamps. -/
def DateTime.le (a b : DateTime) : Bool :=
  Date.lt a.date b.date || (a.date == b.date && decide (a.sec ≤ b.sec))

/-- Gregorian leap-year test, as Python's `calendar.isleap`. -/
def isLeap (y : Nat) : Bool :=
  (y % 4 == 0 && y % 100 != 0) || y % 400 == 0

/-- Number of days in a month of a given year. -/
def daysInMonth (y m : Nat) : Nat :=
  if m = 2 then (if isLeap y then 29 else 28)
  else if m = 4 ∨ m = 6 ∨ m = 9 ∨ m = 11 then 30
  else 31

/-- Zero-based month counter: months elapsed since year 0, month 1. -/
def Date.monthsIndex (d : Date) : Nat := d.year * 12 + (d.month - 1)

/-- Calendar-month addition as `dateutil.relativedelta(months=n)`: jump to the
month `n` months later and clamp the day to that month's length. -/
def Date.addMonths (d : Date) (n : Nat) : Date :=
  let t := d.year * 12 + (d.month - 1) + n
  let y := t / 12
  let m := t % 12 + 1
  { year := y, month := m, day := min d.day (daysInMonth y m) }

/-- The next calendar day. -/
def Date.next (d : Date) : Date :=
  if d.day < daysInMonth d.year d.month then { d with day := d.day + 1 }
  else if d.month < 12 then { year := d.year, month := d.month + 1, day := 1 }
  else { year := d.year + 1, month := 1, day := 1 }

/-- Day addition as Python `timedelta(days=n)`: n successive calendar days. -/
def Date.addDays (d : Date) : Nat → Date
  | 0 => d
  | n + 1 => d.next.addDays n

/-- Day addition on timestamps: `timedelta(days=n)` keeps the time of day. -/
def DateTime.addDays (t : DateTime) (n : Nat) : DateTime :=
  { t with date := t.date.addDays n }

/-- Serial day number of a date (valid for year ≥ 1), used to model Python
`(a - b).days`; days-from-civil over a 400-year era. -/
def Date.serial (d : Date) : Nat :=
  let y := if d.month ≤ 2 then d.year - 1 else d.year
  let era := y / 400
  let yoe := y % 400
  let mp := (d.month + 9) % 12
  let doy := (153 * mp + 2) / 5 + d.day - 1
  let doe := yoe * 365 + yoe / 4 - yoe / 100 + doy
  era * 146097 + doe

/-- `daysBetween a b` models Python `(b - a).days`. -/
def daysBetween (a b : Date) : Int :=
  (b.serial : Int) - (a.serial : Int)

/-- A well-formed calendar date. -/
def Date.valid (d : Date) : Bool :=
  decide (1 ≤ d.month ∧ d.month ≤ 12 ∧ 1 ≤ d.day ∧ d.day ≤ daysInMonth d.year d.month)

theorem dateLt_iff {a b : Date} : Date.lt a b = true ↔
    (a.year < b.year ∨ (a.year = b.year ∧
      (a.month < b.month ∨ (a.month = b.month ∧ a.day < b.day)))) := by
  simp [Date.lt]

theorem dateLe_iff {a b : Date} : Date.le a b = true ↔
    (a.year < b.year ∨ (a.year = b.year ∧
      (a.month < b.month ∨ (a.month = b.month ∧ a.day ≤ b.day)))) := by
  simp [Date.le]

theorem dtLt_iff {a b : DateTime} : DateTime.lt a b = true ↔
    (Date.lt a.date b.date = true ∨ (a.date = b.date ∧ a.sec < b.sec)) := by
  simp [DateTime.lt]

/-- A strictly earlier timestamp has a (non-strictly) earlier date. -/
theorem dtDateLe_of_lt {a b : DateTime} (h : DateTime.lt a b = true) :
    Date.le a.date b.date = true := by
  rcases dtLt_iff.mp h with h' | ⟨h', _⟩
  · rw [dateLe_iff]; rw [dateLt_iff] at h'; omega
  · rw [dateLe_iff]; rw [h']; omega

/-- Adding at least one month moves a valid date strictly forward. -/
theorem dateLt_addMonths {d : Date} {n : Nat} (hd : d.valid = true)
    (hn : 1 ≤ n) : Date.lt d (d.addMonths n) = true := by
  simp only [Date.valid, decide_eq_true_eq] at hd
  obtain ⟨hm1, hm2, _, _⟩ := hd
  rw [dateLt_iff]
  simp only [Date.addMonths]
  have hdiv := Nat.div_add_mod (d.year * 12 + (d.month - 1) + n) 12
  have hmod : (d.year * 12 + (d.month - 1) + n) % 12 < 12 :=
    Nat.mod_lt _ (by omega)
  omega

/-- Adding months never moves a valid date backward. -/
theorem dateLe_addMonths {d : Date} {n : Nat} (hd : d.valid = true)
    (hn : 1 ≤ n) : Date.le d (d.addMonths n) = true := by
  have h := dateLt_addMonths hd hn
  rw [dateLt_iff] at h
  rw [dateLe_iff]
  omega

/-- `Date.le` is transitive. -/
theorem dateLe_trans {a b c : Date} (h1 : Date.le a b = true)
    (h2 : Date.le b c = true) : Date.le a c = true := by
  rw [dateLe_iff] at h1 h2 ⊢
  omega

/-- A strict bound strengthens a non-strict one on the left. -/
theorem dateLe_of_lt {a b : Date} (h : Date.lt a b = true) :
    Date.le a b = true := by
  rw [dateLt_iff] at h
  rw [dateLe_iff]
  omega

/-! ## Data model (`index/models.py`) -/

/-- `PaymentTransaction.TRANSACTION_STATUS` choices. -/
inductive TxnStatus where
  | pending | processing | completed | failed | refunded | cancelled
deriving DecidableEq

/-- `Subscription.SUBSCRIPTION_STATUS` choices. -/
inductive SubStatus where
  | trial | active | expired | cancelled
deriving DecidableEq

/-- `CustomUser.USER_ROLES` choices. -/
inductive Role where
  | admin | centeradmin | staff
deriving DecidableEq

/-- The subscription-relevant fields of `ServiceCenter` (models.py:39-67). -/
structure ServiceCenter where
  is_active : Bool
  trial_ends_at : Option DateTime
  subscription_started_at : Option DateTime
  subscription_valid_until : Option Date
deriving DecidableEq

/-- The ledger-relevant fields of `PaymentTransaction` (models.py:355-411). -/
structure PaymentTransaction where
  transaction_id : String
  status : TxnStatus
  amount : Int
  razorpay_order_id : Option String
  razorpay_payment_id : Option String
  razorpay_signature : Option String
  completed_at : Option DateTime
deriving DecidableEq

/-- The status-relevant fields of a `Subscription` record (models.py:287-310). -/
structure Subscription where
  status : SubStatus
  started_at : DateTime
  expires_at : DateTime
deriving DecidableEq

/-- A `SubscriptionHistory` row (models.py:431-456). -/
structure SubscriptionHistory where
  payment_transaction : Option String
  started_at : DateTime
  expires_at : DateTime
  previous_expires_at : Option DateTime
  plan_name : String
  amount_paid : Int
  is_extension : Bool
deriving DecidableEq

/-! ## LifecycleEvaluator (`ServiceCenter` methods, models.py:85-165)

Python reads the clock twice (`timezone.now()` and `date.today()`); both are
the same instant, modelled by a single `now : DateTime` whose date part plays
the role of `date.today()`. -/

/-- `ServiceCenter.is_trial_active` (models.py:85-87):
`timezone.now() < self.trial_ends_at if self.trial_ends_at else False`. -/
def ServiceCenter.is_trial_active (s : ServiceCenter) (now : DateTime) : Bool :=
  match s.trial_ends_at with
  | some t => DateTime.lt now t
  | none => false

/-- `ServiceCenter.is_subscription_active` (models.py:89-93):
false when `subscription_valid_until` is null, else
`date.today() <= self.subscription_valid_until`. -/
def ServiceCenter.is_subscription_active (s : ServiceCenter) (today : Date) : Bool :=
  match s.subscription_valid_until with
  | some v => Date.le today v
  | none => false

/-- `ServiceCenter.can_access_service` (models.py:95-97):
`self.is_active and (self.is_trial_active() or self.is_subscription_active())`. -/
def ServiceCenter.can_access_service (s : ServiceCenter) (now : DateTime) : Bool :=
  s.is_active && (s.is_trial_active now || s.is_subscription_active now.date)

/-- `ServiceCenter.extend_subscription` (models.py:102-138).  Returns the
updated center, the new end date (`new_end_date`) and the created
`SubscriptionHistory` row.  The `payTxn` argument mirrors the
`payment_transaction` parameter; persistence is the caller's concern. -/
def ServiceCenter.extend_subscription (s : ServiceCenter) (now : DateTime)
    (months : Nat) (payTxn : Option PaymentTransaction) :
    ServiceCenter × Date × SubscriptionHistory :=
  let start_date : Date :=
    if s.is_subscription_active now.date then
      match s.subscription_valid_until with
      | some v => v
      | none => now.date  -- unreachable: is_subscription_active requires a value
    else if s.is_trial_active now then
      match s.trial_ends_at with
      | some t => t.date
      | none => now.date  -- unreachable: is_trial_active requires a value
    else
      now.date
  let new_end_date := start_date.addMonths months
  let s' : ServiceCenter :=
    { s with
      subscription_valid_until := some new_end_date,
      subscription_started_at :=
        match s.subscription_started_at with
        | none => some now
        | some t => some t }
  let hist : SubscriptionHistory :=
    { payment_transaction := payTxn.map (·.transaction_id),
      started_at := now,
      expires_at := { date := new_end_date, sec := 0 },
      previous_expires_at :=
        if start_date ≠ now.date then some { date := start_date, sec := 0 }
        else none,
      plan_name := "1 Year Extension",
      amount_paid := match payTxn with | some t => t.amount | none => 0,
      is_extension := true }
  (s', new_end_date, hist)

/-- The record returned by `ServiceCenter.get_subscription_status`
(models.py:140-165), restricted to the derived fields. -/
structure SubscriptionStatus where
  can_access : Bool
  is_trial_active : Bool
  is_subscription_active : Bool
  days_remaining : Option Int
  status_text : String
deriving DecidableEq

/-- `ServiceCenter.get_subscription_status` (models.py:140-165).  Note the
branch order of the source: subscription, then trial, then the disabled
check, then the expired fallback. -/
def ServiceCenter.get_subscription_status (s : ServiceCenter) (now : DateTime) :
    SubscriptionStatus :=
  let base : SubscriptionStatus :=
    { can_access := s.can_access_service now,
      is_trial_active := s.is_trial_active now,
      is_subscription_active := s.is_subscription_active now.date,
      days_remaining := none,
      status_text := "Inactive" }
  if s.is_subscription_active now.date then
    let d := daysBetween now.date ((s.subscription_valid_until).getD now.date)
    { base with days_remaining := some d,
                status_text := s!"Active ({d} days remaining)" }
  else if s.is_trial_active now then
    let d := daysBetween now.date (((s.trial_ends_at).map (·.date)).getD now.date)
    { base with days_remaining := some d,
                status_text := s!"Trial ({d} days remaining)" }
  else if !s.is_active then
    { base with status_text := "Account Disabled" }
  else
    { base with status_text := "Subscription Expired" }

/-! ## SubscriptionLedger (`index/views.py:989-1059`)

`verify_payment_and_extend` runs inside `with transaction.atomic():`; a
failure at any point of the block rolls every write back.  The embedding
makes the block's writes explicit over a per-tenant database snapshot and
models a storage failure ("PersistenceFailure") injected at any of the
block's write points; the atomic wrapper returns the original snapshot
whenever the body fails. -/

/-- Failure taxonomy of the confirm-payment path. -/
inductive VerifyErr where
  | TransactionNotFoundOrAlreadyProcessed
  | PersistenceFailure
deriving DecidableEq

/-- The write points inside the atomic block at which the storage
collaborator may fail. -/
inductive Step where
  | markCompleted | persistExpiry | appendHistory
deriving DecidableEq

/-- Per-tenant database snapshot: the tenant row plus its payment
transactions, `Subscription` records and `SubscriptionHistory` rows. -/
structure DB where
  center : ServiceCenter
  txns : List PaymentTransaction
  subs : List Subscription
  history : List SubscriptionHistory
deriving DecidableEq

/-- `get_object_or_404(PaymentTransaction, razorpay_order_id=..., status='pending')`
(views.py:1010-1014). -/
def findPendingTxn (txns : List PaymentTransaction) (orderRef : String) :
    Option PaymentTransaction :=
  txns.find? (fun t => t.razorpay_order_id == some orderRef && t.status == .pending)

/-- Persisting a changed transaction row: replace the row with the matching
`transaction_id`. -/
def updateTxn (txns : List PaymentTransaction) (id : String)
    (t' : PaymentTransaction) : List PaymentTransaction :=
  txns.map (fun t => if t.transaction_id == id then t' else t)

/-- A storage write, failing when the injected failure point matches. -/
def stepWrite (failAt : Option Step) (s : Step) (db : DB) : Except VerifyErr DB :=
  if failAt == some s then .error .PersistenceFailure else .ok db

/-- Body of the atomic block of `verify_payment_and_extend`
(views.py:1004-1045): look up the pending transaction by gateway order
reference, mark it completed with the gateway references and `completed_at`,
then run `ServiceCenter.extend_subscription` (which persists the new expiry
and appends the history row). -/
def verifyBody (failAt : Option Step) (orderRef payRef sigRef : String)
    (now : DateTime) (db : DB) : Except VerifyErr (DB × Date) :=
  match findPendingTxn db.txns orderRef with
  | none => .error .TransactionNotFoundOrAlreadyProcessed
  | some t0 =>
    let t' : PaymentTransaction :=
      { t0 with
        razorpay_payment_id := some payRef,
        razorpay_signature := some sigRef,
        status := .completed,
        completed_at := some now }
    match stepWrite failAt .markCompleted
        { db with txns := updateTxn db.txns t0.transaction_id t' } with
    | .error e => .error e
    | .ok db1 =>
      let ext := db1.center.extend_subscription now 12 (some t')
      match stepWrite failAt .persistExpiry { db1 with center := ext.1 } with
      | .error e => .error e
      | .ok db2 =>
        match stepWrite failAt .appendHistory
            { db2 with history := db2.history ++ [ext.2.2] } with
        | .error e => .error e
        | .ok db3 => .ok (db3, ext.2.1)

/-- `verify_payment_and_extend` (views.py:989-1059): the atomic block's body
with rollback — on any failure the returned snapshot is the original one. -/
def verify_payment_and_extend (failAt : Option Step)
    (orderRef payRef sigRef : String) (now : DateTime) (db : DB) :
    DB × Except VerifyErr Date :=
  match verifyBody failAt orderRef payRef sigRef now db with
  | .ok (db', d) => (db', .ok d)
  | .error e => (db, .error e)

/-! ## `activate_subscription` (`index/views.py:385-453`) -/

/-- The atomic block of `activate_subscription` (views.py:412-437): overwrite
the tenant's subscription dates with `now + duration_months * 30 days`,
create an active `Subscription` record, and mark trial records expired. -/
def activate_subscription (db : DB) (now : DateTime) (duration_months : Nat) : DB :=
  let c' : ServiceCenter :=
    { db.center with
      subscription_started_at := some now,
      subscription_valid_until := some (now.date.addDays (duration_months * 30)) }
  let newSub : Subscription :=
    { status := .active,
      started_at := now,
      expires_at := now.addDays (duration_months * 30) }
  let subs' := (db.subs ++ [newSub]).map
    (fun sub => if sub.status == .trial then { sub with status := .expired } else sub)
  { db with center := c', subs := subs' }

/-! ## AccessGate (`index/middleware.py:39-92`)

The decision core of `SubscriptionAccessMiddleware.process_request` for an
authenticated request to a gated path, mirrored by
`check_access_permission` (views.py:1480-1524). -/

/-- The four access decisions. -/
inductive Decision where
  | ALLOW | PAYMENT_REQUIRED | ACCESS_DENIED | NO_TENANT
deriving DecidableEq

/-- Access decision (middleware.py:52-92): admins pass, callers without a
service center get `NO_SERVICE_CENTER`, otherwise `can_access_service`
decides, with a 402 for `centeradmin` and a 403 for other roles. -/
def process_request (role : Role) (center : Option ServiceCenter)
    (now : DateTime) : Decision :=
  if role = .admin then .ALLOW
  else
    match center with
    | none => .NO_TENANT
    | some sc =>
      if sc.can_access_service now then .ALLOW
      else if role = .centeradmin then .PAYMENT_REQUIRED
      else .ACCESS_DENIED

/-! ## Daily expiry job
(`index/management/commands/check_expired_subscriptions.py:29-58`) -/

/-- Membership test of the `expired_centers` queryset (lines 29-38):
`is_active=True`, excluding `subscription_valid_until >= today` and
excluding (`trial_ends_at >= now` and `subscription_valid_until` null).
Django `exclude` keeps rows whose null field fails the comparison. -/
def isExpiredCenter (s : ServiceCenter) (now : DateTime) : Bool :=
  s.is_active
    && !(match s.subscription_valid_until with
         | some v => Date.le now.date v
         | none => false)
    && !((match s.trial_ends_at with
          | some t => DateTime.le now t
          | none => false)
         && s.subscription_valid_until == none)

/-- Effect of `Command.handle` (lines 48-58) on one center: expired centers
get `is_active = False`. -/
def check_expired_job (s : ServiceCenter) (now : DateTime) : ServiceCenter :=
  if isExpiredCenter s now then { s with is_active := false } else s

/-! ## Spec-side definition for the refinement claim C1 -/

/-- Modelled from the spec's words (§4.2 branch selection), for comparison
with the source's `ServiceCenter.extend_subscription`: the extension base is
`subscriptionValidUntil` when the subscription is active at `now`, else the
date part of `trialEndsAt` when the trial is active at `now`, else the date
of `now`. -/
def specExtensionBase (s : ServiceCenter) (now : DateTime) : Date :=
  if s.is_subscription_active now.date then
    (s.subscription_valid_until).getD now.date
  else if s.is_trial_active now then
    ((s.trial_ends_at).map (·.date)).getD now.date
  else
    now.date

/-! ## Further order helpers -/

/-- `Date.le` is reflexive. -/
theorem dateLe_refl (a : Date) : Date.le a a = true := by
  rw [dateLe_iff]; omega

/-- A strictly earlier date is not later-or-equal the other way. -/
theorem dateNotLe_of_lt {a b : Date} (h : Date.lt a b = true) :
    Date.le b a = false := by
  rw [dateLt_iff] at h
  cases he : Date.le b a
  · rfl
  · rw [dateLe_iff] at he; omega

/-! ## Claim theorems -/

/-- C6: for every tenant state and time `now`, `can_access_service` equals
`is_active AND (is_trial_active OR is_subscription_active)`; in particular a
disabled center never gets access, even with an active trial or
subscription window. -/
theorem c6_can_access_is_conjunction (s : ServiceCenter) (now : DateTime) :
    (s.can_access_service now = true ↔
      (s.is_active = true ∧
        (s.is_trial_active now = true ∨ s.is_subscription_active now.date = true)))
    ∧ (s.is_active = false → s.can_access_service now = false) := by
  constructor
  · simp [ServiceCenter.can_access_service]
  · intro h
    simp [ServiceCenter.can_access_service, h]

/-- Witness for C6 at a concrete disabled center with a subscription window
covering `now`. -/
theorem c6_witness :
    ServiceCenter.can_access_service
      { is_active := false, trial_ends_at := none, subscription_started_at := none,
        subscription_valid_until := some ⟨2025, 6, 10⟩ }
      { date := ⟨2025, 6, 1⟩, sec := 0 } = false :=
  (c6_can_access_is_conjunction _ _).2 rfl

/-- C7: subscription validity is date-granular and inclusive
(`today ≤ subscription_valid_until`, so true on the expiry date itself and
false the day after), while trial validity is timestamp-granular and strict
(`now < trial_ends_at`). -/
theorem c7_granularity_asymmetry (s : ServiceCenter) (now : DateTime) :
    (s.is_subscription_active now.date = true ↔
      ∃ v, s.subscription_valid_until = some v ∧ Date.le now.date v = true)
    ∧ (s.is_trial_active now = true ↔
      ∃ t, s.trial_ends_at = some t ∧ DateTime.lt now t = true)
    ∧ (s.subscription_valid_until = some now.date →
        s.is_subscription_active now.date = true)
    ∧ (∀ v, s.subscription_valid_until = some v → Date.lt v now.date = true →
        s.is_subscription_active now.date = false) := by
  refine ⟨?_, ?_, ?_, ?_⟩
  · cases h : s.subscription_valid_until with
    | none => simp [ServiceCenter.is_subscription_active, h]
    | some v => simp [ServiceCenter.is_subscription_active, h]
  · cases h : s.trial_ends_at with
    | none => simp [ServiceCenter.is_trial_active, h]
    | some t => simp [ServiceCenter.is_trial_active, h]
  · intro h
    simp [ServiceCenter.is_subscription_active, h, dateLe_refl]
  · intro v hv hlt
    simp [ServiceCenter.is_subscription_active, hv, dateNotLe_of_lt hlt]

/-- Witness for C7: boundary checks at concrete dates — a subscription
expiring today is active, one that expired yesterday is not. -/
theorem c7_witness :
    ServiceCenter.is_subscription_active
      { is_active := true, trial_ends_at := none, subscription_started_at := none,
        subscription_valid_until := some ⟨2025, 6, 10⟩ }
      ⟨2025, 6, 10⟩ = true
    ∧ ServiceCenter.is_subscription_active
      { is_active := true, trial_ends_at := none, subscription_started_at := none,
        subscription_valid_until := some ⟨2025, 6, 9⟩ }
      ⟨2025, 6, 10⟩ = false := by
  constructor
  · exact (c7_granularity_asymmetry _ { date := ⟨2025, 6, 10⟩, sec := 0 }).2.2.1 rfl
  · exact (c7_granularity_asymmetry _ { date := ⟨2025, 6, 10⟩, sec := 0 }).2.2.2
      ⟨2025, 6, 9⟩ rfl (by decide)

/-- C8 counterexample: a disabled center whose subscription window covers
`now` gets the status text "Active (0 days remaining)", not
"Account Disabled" — the source checks the subscription branch before the
disabled branch (models.py:152-163). -/
theorem c8_counterexample :
    (ServiceCenter.get_subscription_status
      { is_active := false, trial_ends_at := none, subscription_started_at := none,
        subscription_valid_until := some ⟨2025, 6, 10⟩ }
      { date := ⟨2025, 6, 10⟩, sec := 0 }).status_text
      = "Active (0 days remaining)" ∧
    (ServiceCenter.get_subscription_status
      { is_active := false, trial_ends_at := none, subscription_started_at := none,
        subscription_valid_until := some ⟨2025, 6, 10⟩ }
      { date := ⟨2025, 6, 10⟩, sec := 0 }).status_text
      ≠ "Account Disabled" := by
  constructor
  · decide
  · decide

/-- C8 amended: the status text follows the source's priority order —
"Active (…)" whenever the subscription is active (even for a disabled
center), else "Trial (…)" whenever the trial is active, else
"Account Disabled" when the center is disabled, else
"Subscription Expired". -/
theorem c8_status_text_priority (s : ServiceCenter) (now : DateTime) :
    (s.is_subscription_active now.date = true →
      ∃ d : Int, (s.get_subscription_status now).status_text
        = s!"Active ({d} days remaining)")
    ∧ (s.is_subscription_active now.date = false → s.is_trial_active now = true →
      ∃ d : Int, (s.get_subscription_status now).status_text
        = s!"Trial ({d} days remaining)")
    ∧ (s.is_subscription_active now.date = false → s.is_trial_active now = false →
      s.is_active = false →
      (s.get_subscription_status now).status_text = "Account Disabled")
    ∧ (s.is_subscription_active now.date = false → s.is_trial_active now = false →
      s.is_active = true →
      (s.get_subscription_status now).status_text = "Subscription Expired") := by
  refine ⟨?_, ?_, ?_, ?_⟩
  · intro h
    exact ⟨daysBetween now.date ((s.subscription_valid_until).getD now.date),
      by simp [ServiceCenter.get_subscription_status, h]⟩
  · intro h1 h2
    exact ⟨daysBetween now.date (((s.trial_ends_at).map (·.date)).getD now.date),
      by simp [ServiceCenter.get_subscription_status, h1, h2]⟩
  · intro h1 h2 h3
    simp [ServiceCenter.get_subscription_status, h1, h2, h3]
  · intro h1 h2 h3
    simp [ServiceCenter.get_subscription_status, h1, h2, h3]

/-- Witness for C8's amended theorem: a disabled center with no active
window is reported "Account Disabled". -/
theorem c8_witness :
    (ServiceCenter.get_subscription_status
      { is_active := false, trial_ends_at := none, subscription_started_at := none,
        subscription_valid_until := some ⟨2025, 6, 9⟩ }
      { date := ⟨2025, 6, 10⟩, sec := 0 }).status_text = "Account Disabled" :=
  (c8_status_text_priority _ _).2.2.1 (by decide) (by decide) rfl

/-- C5: the access-gate decision — admins always pass; a non-admin caller
without a tenant gets `NO_TENANT`; otherwise `can_access_service` decides,
with `PAYMENT_REQUIRED` for `centeradmin` and `ACCESS_DENIED` for `staff`;
and a center that cannot access (disabled or expired) is never allowed for
non-admin roles. -/
theorem c5_access_gate_decision (role : Role) (sc : ServiceCenter)
    (c : Option ServiceCenter) (now : DateTime) :
    (process_request .admin c now = .ALLOW)
    ∧ (role ≠ .admin → process_request role none now = .NO_TENANT)
    ∧ (role ≠ .admin → sc.can_access_service now = true →
        process_request role (some sc) now = .ALLOW)
    ∧ (sc.can_access_service now = false →
        process_request .centeradmin (some sc) now = .PAYMENT_REQUIRED
        ∧ process_request .staff (some sc) now = .ACCESS_DENIED)
    ∧ (role ≠ .admin → sc.can_access_service now = false →
        process_request role (some sc) now ≠ .ALLOW) := by
  refine ⟨rfl, ?_, ?_, ?_, ?_⟩
  · intro h
    simp [process_request, h]
  · intro h hc
    simp [process_request, h, hc]
  · intro hc
    exact ⟨by simp [process_request, hc], by simp [process_request, hc]⟩
  · intro h hc
    cases role with
    | admin => exact absurd rfl h
    | centeradmin => simp [process_request, hc]
    | staff => simp [process_request, hc]

/-- Witness for C5: one expired center yields `PAYMENT_REQUIRED` for the
owner and `ACCESS_DENIED` for a member. -/
theorem c5_witness :
    process_request .centeradmin
      (some { is_active := true, trial_ends_at := some ⟨⟨2025, 1, 16⟩, 0⟩,
              subscription_started_at := none,
              subscription_valid_until := some ⟨2025, 6, 9⟩ })
      { date := ⟨2025, 6, 10⟩, sec := 0 } = .PAYMENT_REQUIRED
    ∧ process_request .staff
      (some { is_active := true, trial_ends_at := some ⟨⟨2025, 1, 16⟩, 0⟩,
              subscription_started_at := none,
              subscription_valid_until := some ⟨2025, 6, 9⟩ })
      { date := ⟨2025, 6, 10⟩, sec := 0 } = .ACCESS_DENIED :=
  (c5_access_gate_decision .staff _ none _).2.2.2.1 (by decide)

/-- C10: an enabled center whose trial is still running but whose
subscription expiry is set and already past is disabled by the daily expiry
job, although `can_access_service` still grants it access at that moment. -/
theorem c10_job_disables_accessible_center (s : ServiceCenter) (now : DateTime)
    (t : DateTime) (v : Date)
    (hact : s.is_active = true)
    (ht : s.trial_ends_at = some t)
    (htrial : DateTime.lt now t = true)
    (hv : s.subscription_valid_until = some v)
    (hpast : Date.lt v now.date = true) :
    (check_expired_job s now).is_active = false
    ∧ s.can_access_service now = true := by
  have hnotle : Date.le now.date v = false := dateNotLe_of_lt hpast
  constructor
  · have hexp : isExpiredCenter s now = true := by
      simp [isExpiredCenter, hact, hv, ht, hnotle]
    simp [check_expired_job, hexp]
  · simp [ServiceCenter.can_access_service, hact, ServiceCenter.is_trial_active,
      ht, htrial]

/-- Witness for C10: a concrete enabled center, mid-trial, with a stale
subscription expiry. -/
theorem c10_witness :
    (check_expired_job
      { is_active := true, trial_ends_at := some ⟨⟨2025, 6, 20⟩, 0⟩,
        subscription_started_at := none,
        subscription_valid_until := some ⟨2025, 6, 1⟩ }
      { date := ⟨2025, 6, 10⟩, sec := 0 }).is_active = false
    ∧ ServiceCenter.can_access_service
      { is_active := true, trial_ends_at := some ⟨⟨2025, 6, 20⟩, 0⟩,
        subscription_started_at := none,
        subscription_valid_until := some ⟨2025, 6, 1⟩ }
      { date := ⟨2025, 6, 10⟩, sec := 0 } = true :=
  c10_job_disables_accessible_center _ _ _ _ rfl rfl (by decide) rfl (by decide)

/-! ## Calendar-month arithmetic lemmas for C1 and C3 -/

/-- `addMonths` lands exactly `n` months later (for a well-formed start),
with a well-formed target month. -/
theorem addMonths_months_exact {d : Date} (n : Nat) (hd : d.valid = true) :
    (d.addMonths n).monthsIndex = d.monthsIndex + n
    ∧ 1 ≤ (d.addMonths n).month ∧ (d.addMonths n).month ≤ 12 := by
  simp only [Date.valid, decide_eq_true_eq] at hd
  simp only [Date.addMonths, Date.monthsIndex]
  have hdiv := Nat.div_add_mod (d.year * 12 + (d.month - 1) + n) 12
  have hmod : (d.year * 12 + (d.month - 1) + n) % 12 < 12 :=
    Nat.mod_lt _ (by omega)
  refine ⟨?_, ?_, ?_⟩ <;> omega

/-- `addMonths` keeps the day-of-month when the target month is long enough,
and otherwise clamps to the target month's last day. -/
theorem addMonths_day_clamped (d : Date) (n : Nat) :
    (d.day ≤ daysInMonth (d.addMonths n).year (d.addMonths n).month →
      (d.addMonths n).day = d.day)
    ∧ (daysInMonth (d.addMonths n).year (d.addMonths n).month < d.day →
      (d.addMonths n).day = daysInMonth (d.addMonths n).year (d.addMonths n).month) := by
  simp only [Date.addMonths]
  constructor <;> intro h <;> omega

/-- The source's `extend_subscription` picks exactly the spec's base:
its returned `new_end_date` is `specExtensionBase + months`. -/
theorem extend_newEnd_eq_spec (s : ServiceCenter) (now : DateTime) (m : Nat)
    (payTxn : Option PaymentTransaction) :
    (s.extend_subscription now m payTxn).2.1 = (specExtensionBase s now).addMonths m := by
  unfold ServiceCenter.extend_subscription specExtensionBase
  by_cases h1 : s.is_subscription_active now.date = true
  · cases h : s.subscription_valid_until with
    | none => simp [ServiceCenter.is_subscription_active, h] at h1
    | some v => simp [h1, h]
  · rw [Bool.not_eq_true] at h1
    by_cases h2 : s.is_trial_active now = true
    · cases h : s.trial_ends_at with
      | none => simp [ServiceCenter.is_trial_active, h] at h2
      | some t => simp [h1, h2, h]
    · rw [Bool.not_eq_true] at h2
      simp [h1, h2]

/-- `extend_subscription` persists exactly its returned end date onto
`subscription_valid_until`. -/
theorem extend_persists_newEnd (s : ServiceCenter) (now : DateTime) (m : Nat)
    (payTxn : Option PaymentTransaction) :
    (s.extend_subscription now m payTxn).1.subscription_valid_until
      = some ((s.extend_subscription now m payTxn).2.1) := rfl

/-- The spec's extension base is a well-formed date whenever the stored
dates and the clock are. -/
theorem specBase_valid (s : ServiceCenter) (now : DateTime)
    (hnow : now.date.valid = true)
    (hsub : ∀ v, s.subscription_valid_until = some v → v.valid = true)
    (htr : ∀ t, s.trial_ends_at = some t → t.date.valid = true) :
    (specExtensionBase s now).valid = true := by
  unfold specExtensionBase
  by_cases h1 : s.is_subscription_active now.date = true
  · cases h : s.subscription_valid_until with
    | none => simp [ServiceCenter.is_subscription_active, h] at h1
    | some v => simpa [h1, h] using hsub v h
  · rw [Bool.not_eq_true] at h1
    by_cases h2 : s.is_trial_active now = true
    · cases h : s.trial_ends_at with
      | none => simp [ServiceCenter.is_trial_active, h] at h2
      | some t => simpa [h1, h2, h] using htr t h
    · rw [Bool.not_eq_true] at h2
      simpa [h1, h2] using hnow

/-- From a failed `≤` comparison the strict reverse comparison follows. -/
theorem dateLt_of_not_le {a b : Date} (h : Date.le a b = false) :
    Date.lt b a = true := by
  have h' : ¬ (a.year < b.year ∨ (a.year = b.year ∧
      (a.month < b.month ∨ (a.month = b.month ∧ a.day ≤ b.day)))) := by
    rw [← dateLe_iff]
    simp [h]
  rw [dateLt_iff]
  omega

/-- C1: `extend_subscription` returns `base + months` where `base` is the
spec's branch selection (active subscription expiry, else trial-end date,
else today); the target is exactly `months` calendar months later with the
day-of-month preserved when possible and clamped to the target month's last
day otherwise; including the spec's month-end and carry-over examples. -/
theorem c1_extension_base_and_clamping (s : ServiceCenter) (now : DateTime)
    (m : Nat) (payTxn : Option PaymentTransaction)
    (hm : 1 ≤ m) (hnow : now.date.valid = true)
    (hsub : ∀ v, s.subscription_valid_until = some v → v.valid = true)
    (htr : ∀ t, s.trial_ends_at = some t → t.date.valid = true) :
    (s.extend_subscription now m payTxn).2.1 = (specExtensionBase s now).addMonths m
    ∧ ((specExtensionBase s now).addMonths m).monthsIndex
        = (specExtensionBase s now).monthsIndex + m
    ∧ ((specExtensionBase s now).day
          ≤ daysInMonth ((specExtensionBase s now).addMonths m).year
              ((specExtensionBase s now).addMonths m).month →
        ((specExtensionBase s now).addMonths m).day = (specExtensionBase s now).day)
    ∧ (daysInMonth ((specExtensionBase s now).addMonths m).year
          ((specExtensionBase s now).addMonths m).month < (specExtensionBase s now).day →
        ((specExtensionBase s now).addMonths m).day
          = daysInMonth ((specExtensionBase s now).addMonths m).year
              ((specExtensionBase s now).addMonths m).month)
    ∧ Date.addMonths ⟨2025, 1, 31⟩ 1 = ⟨2025, 2, 28⟩
    ∧ (ServiceCenter.extend_subscription
        { is_active := true, trial_ends_at := some ⟨⟨2025, 1, 16⟩, 0⟩,
          subscription_started_at := some ⟨⟨2024, 6, 1⟩, 0⟩,
          subscription_valid_until := some ⟨2025, 6, 1⟩ }
        ⟨⟨2025, 3, 1⟩, 0⟩ 12 none).2.1 = ⟨2026, 6, 1⟩ := by
  have hb := specBase_valid s now hnow hsub htr
  exact ⟨extend_newEnd_eq_spec s now m payTxn, (addMonths_months_exact m hb).1,
    (addMonths_day_clamped _ m).1, (addMonths_day_clamped _ m).2,
    by decide, by decide⟩

/-- Witness for C1 at the spec's trial-conversion input: trial ending
2025-01-20, now 2025-01-10, 12 months. -/
theorem c1_witness :
    (ServiceCenter.extend_subscription
      { is_active := true, trial_ends_at := some ⟨⟨2025, 1, 20⟩, 0⟩,
        subscription_started_at := none, subscription_valid_until := none }
      ⟨⟨2025, 1, 10⟩, 0⟩ 12 none).2.1
      = (specExtensionBase
          { is_active := true, trial_ends_at := some ⟨⟨2025, 1, 20⟩, 0⟩,
            subscription_started_at := none, subscription_valid_until := none }
          ⟨⟨2025, 1, 10⟩, 0⟩).addMonths 12 :=
  (c1_extension_base_and_clamping _ _ 12 none (by decide) (by decide)
    (fun v hv => Option.noConfusion hv) (fun t ht => by cases ht; decide)).1

set_option maxRecDepth 2000 in
/-- C3 counterexample: `activate_subscription` (views.py:412-418) overwrites
`subscription_valid_until` with `today + duration_months * 30 days`
unconditionally; on a tenant whose expiry was 2030-01-01 an activation on
2025-03-01 for one month moves it back to 2025-03-31. -/
theorem c3_counterexample :
    (activate_subscription
      { center := { is_active := true, trial_ends_at := some ⟨⟨2025, 1, 16⟩, 0⟩,
                    subscription_started_at := some ⟨⟨2024, 1, 1⟩, 0⟩,
                    subscription_valid_until := some ⟨2030, 1, 1⟩ },
        txns := [], subs := [], history := [] }
      ⟨⟨2025, 3, 1⟩, 0⟩ 1).center.subscription_valid_until = some ⟨2025, 3, 31⟩
    ∧ Date.lt ⟨2025, 3, 31⟩ ⟨2030, 1, 1⟩ = true := by
  exact ⟨by decide, by decide⟩

/-- C3 amended: `subscription_valid_until`, once set, never moves backward
under the payment-confirmation extension (`extend_subscription`); the
subscription-activation endpoint, by contrast, overwrites it and can move it
backward (see the counterexample). -/
theorem c3_extend_monotone (s : ServiceCenter) (now : DateTime) (m : Nat)
    (payTxn : Option PaymentTransaction) (v : Date)
    (hm : 1 ≤ m) (hnow : now.date.valid = true)
    (hsub : ∀ w, s.subscription_valid_until = some w → w.valid = true)
    (htr : ∀ t, s.trial_ends_at = some t → t.date.valid = true)
    (hv : s.subscription_valid_until = some v) :
    (s.extend_subscription now m payTxn).1.subscription_valid_until
      = some ((s.extend_subscription now m payTxn).2.1)
    ∧ Date.le v ((s.extend_subscription now m payTxn).2.1) = true := by
  refine ⟨extend_persists_newEnd s now m payTxn, ?_⟩
  rw [extend_newEnd_eq_spec]
  have hb := specBase_valid s now hnow hsub htr
  by_cases h1 : s.is_subscription_active now.date = true
  · have hbase : specExtensionBase s now = v := by
      simp [specExtensionBase, h1, hv]
    rw [hbase]
    exact dateLe_addMonths (hsub v hv) hm
  · rw [Bool.not_eq_true] at h1
    have hle_false : Date.le now.date v = false := by
      simpa [ServiceCenter.is_subscription_active, hv] using h1
    have hlt : Date.lt v now.date = true := dateLt_of_not_le hle_false
    have hbase_ge : Date.le now.date (specExtensionBase s now) = true := by
      unfold specExtensionBase
      rw [h1]
      by_cases h2 : s.is_trial_active now = true
      · cases ht : s.trial_ends_at with
        | none => simp [ServiceCenter.is_trial_active, ht] at h2
        | some t =>
          have hnt : DateTime.lt now t = true := by
            simpa [ServiceCenter.is_trial_active, ht] using h2
          simpa [h2, ht] using dtDateLe_of_lt hnt
      · rw [Bool.not_eq_true] at h2
        simpa [h2] using dateLe_refl now.date
    have hstep : Date.le (specExtensionBase s now)
        ((specExtensionBase s now).addMonths m) = true :=
      dateLe_addMonths hb hm
    exact dateLe_trans (dateLe_of_lt hlt) (dateLe_trans hbase_ge hstep)

/-- Witness for C3's amended theorem at the spec's carry-over input. -/
theorem c3_witness :
    Date.le ⟨2025, 6, 1⟩
      ((ServiceCenter.extend_subscription
        { is_active := true, trial_ends_at := some ⟨⟨2025, 1, 16⟩, 0⟩,
          subscription_started_at := some ⟨⟨2024, 6, 1⟩, 0⟩,
          subscription_valid_until := some ⟨2025, 6, 1⟩ }
        ⟨⟨2025, 3, 1⟩, 0⟩ 12 none).2.1) = true :=
  (c3_extend_monotone _ _ 12 none ⟨2025, 6, 1⟩ (by decide) (by decide)
    (fun w hw => by cases hw; decide) (fun t ht => by cases ht; decide) rfl).2

/-! ## Ledger lemmas for C2, C4, C9 -/

/-- With no injected failure, the whole atomic block of
`verify_payment_and_extend` runs: the transaction is marked completed with
the gateway references, the extension result is persisted and the history
row appended. -/
theorem verify_none_success (db : DB) (orderRef payRef sigRef : String)
    (now : DateTime) (t0 : PaymentTransaction)
    (hfind : findPendingTxn db.txns orderRef = some t0) :
    verify_payment_and_extend none orderRef payRef sigRef now db
      = (let t' : PaymentTransaction :=
           { t0 with
             razorpay_payment_id := some payRef,
             razorpay_signature := some sigRef,
             status := .completed,
             completed_at := some now }
         let ext := db.center.extend_subscription now 12 (some t')
         ({ db with
              txns := updateTxn db.txns t0.transaction_id t',
              center := ext.1,
              history := db.history ++ [ext.2.2] }, .ok ext.2.1)) := by
  unfold verify_payment_and_extend verifyBody
  rw [hfind]
  rfl

/-- When no pending transaction matches the order reference, the whole call
fails and the snapshot is untouched. -/
theorem verify_error_of_find_none (failAt : Option Step)
    (orderRef payRef sigRef : String) (now : DateTime) (db : DB)
    (h : findPendingTxn db.txns orderRef = none) :
    verify_payment_and_extend failAt orderRef payRef sigRef now db
      = (db, .error .TransactionNotFoundOrAlreadyProcessed) := by
  unfold verify_payment_and_extend verifyBody
  rw [h]

/-- After the matching transaction has left `pending`, the pending lookup by
the same order reference finds nothing (given the order reference was
unique). -/
theorem findPendingTxn_update_none (txns : List PaymentTransaction)
    (orderRef : String) (t0 t' : PaymentTransaction)
    (huniq : ∀ t ∈ txns, t.razorpay_order_id = some orderRef → t = t0)
    (hstat : t'.status ≠ .pending) :
    findPendingTxn (updateTxn txns t0.transaction_id t') orderRef = none := by
  rw [findPendingTxn, List.find?_eq_none]
  intro x hx
  unfold updateTxn at hx
  rcases List.mem_map.mp hx with ⟨t, ht, rfl⟩
  by_cases he : (t.transaction_id == t0.transaction_id) = true
  · rw [if_pos he]
    simp only [Bool.and_eq_true, beq_iff_eq, not_and]
    intro _
    exact hstat
  · rw [if_neg he]
    simp only [Bool.and_eq_true, beq_iff_eq, not_and]
    intro hro _
    apply he
    rw [beq_iff_eq, huniq t ht hro]

/-- C2: confirming the same gateway order twice applies the extension once —
the first call (which requires the matching transaction to be `pending`)
succeeds, and the second call fails with
`TransactionNotFoundOrAlreadyProcessed` leaving the whole snapshot, hence
`subscription_valid_until`, unchanged. -/
theorem c2_confirmation_idempotent (db : DB)
    (orderRef payRef sigRef payRef2 sigRef2 : String) (now now2 : DateTime)
    (t0 : PaymentTransaction)
    (hfind : findPendingTxn db.txns orderRef = some t0)
    (huniq : ∀ t ∈ db.txns, t.razorpay_order_id = some orderRef → t = t0) :
    (∃ d, (verify_payment_and_extend none orderRef payRef sigRef now db).2 = .ok d)
    ∧ (verify_payment_and_extend none orderRef payRef2 sigRef2 now2
        (verify_payment_and_extend none orderRef payRef sigRef now db).1).2
        = .error .TransactionNotFoundOrAlreadyProcessed
    ∧ (verify_payment_and_extend none orderRef payRef2 sigRef2 now2
        (verify_payment_and_extend none orderRef payRef sigRef now db).1).1
        = (verify_payment_and_extend none orderRef payRef sigRef now db).1 := by
  have hred := verify_none_success db orderRef payRef sigRef now t0 hfind
  have htxns : (verify_payment_and_extend none orderRef payRef sigRef now db).1.txns
      = updateTxn db.txns t0.transaction_id
          { t0 with
            razorpay_payment_id := some payRef,
            razorpay_signature := some sigRef,
            status := .completed,
            completed_at := some now } := by
    rw [hred]
  have hnone : findPendingTxn
      ((verify_payment_and_extend none orderRef payRef sigRef now db).1.txns)
      orderRef = none := by
    rw [htxns]
    exact findPendingTxn_update_none db.txns orderRef t0 _ huniq (by simp)
  refine ⟨⟨_, by rw [hred]⟩, ?_, ?_⟩
  · rw [verify_error_of_find_none none orderRef payRef2 sigRef2 now2 _ hnone]
  · rw [verify_error_of_find_none none orderRef payRef2 sigRef2 now2 _ hnone]

/-- Witness for C2 at a concrete snapshot holding one pending transaction. -/
theorem c2_witness :
    (verify_payment_and_extend none "order_1" "pay_2" "sig_2" ⟨⟨2025, 3, 16⟩, 0⟩
      (verify_payment_and_extend none "order_1" "pay_1" "sig_1" ⟨⟨2025, 3, 15⟩, 0⟩
        { center := { is_active := true, trial_ends_at := some ⟨⟨2025, 1, 16⟩, 0⟩,
                      subscription_started_at := none,
                      subscription_valid_until := none },
          txns := [{ transaction_id := "TXN_1", status := .pending, amount := 4999,
                     razorpay_order_id := some "order_1", razorpay_payment_id := none,
                     razorpay_signature := none, completed_at := none }],
          subs := [], history := [] }).1).2
      = .error .TransactionNotFoundOrAlreadyProcessed :=
  (c2_confirmation_idempotent _ "order_1" "pay_1" "sig_1" "pay_2" "sig_2"
    ⟨⟨2025, 3, 15⟩, 0⟩ ⟨⟨2025, 3, 16⟩, 0⟩
    { transaction_id := "TXN_1", status := .pending, amount := 4999,
      razorpay_order_id := some "order_1", razorpay_payment_id := none,
      razorpay_signature := none, completed_at := none }
    (by decide) (by decide)).2.1

/-- C4: a storage failure at any write point of the atomic block — marking
the transaction completed, persisting the new expiry, or appending the
history row — rolls the whole sequence back: the returned snapshot is the
original one, so the transaction is still `pending` without `completed_at`,
`subscription_valid_until` and `subscription_started_at` are unchanged and
no `SubscriptionHistory` row was appended. -/
theorem c4_atomic_rollback (db : DB) (orderRef payRef sigRef : String)
    (now : DateTime) (st : Step) (t0 : PaymentTransaction)
    (hfind : findPendingTxn db.txns orderRef = some t0) :
    (verify_payment_and_extend (some st) orderRef payRef sigRef now db).1 = db
    ∧ (verify_payment_and_extend (some st) orderRef payRef sigRef now db).2
        = .error .PersistenceFailure
    ∧ (verify_payment_and_extend (some st) orderRef payRef sigRef now db).1.txns
        = db.txns
    ∧ (verify_payment_and_extend (some st) orderRef payRef sigRef
        now db).1.center.subscription_valid_until
        = db.center.subscription_valid_until
    ∧ (verify_payment_and_extend (some st) orderRef payRef sigRef
        now db).1.center.subscription_started_at
        = db.center.subscription_started_at
    ∧ (verify_payment_and_extend (some st) orderRef payRef sigRef now db).1.history
        = db.history := by
  have hmain : verify_payment_and_extend (some st) orderRef payRef sigRef now db
      = (db, .error .PersistenceFailure) := by
    cases st <;> (unfold verify_payment_and_extend verifyBody; rw [hfind]; rfl)
  rw [hmain]
  exact ⟨rfl, rfl, rfl, rfl, rfl, rfl⟩

/-- Witness for C4 at a concrete snapshot, failing at the expiry write. -/
theorem c4_witness :
    (verify_payment_and_extend (some .persistExpiry) "order_1" "pay_1" "sig_1"
      ⟨⟨2025, 3, 15⟩, 0⟩
      { center := { is_active := true, trial_ends_at := some ⟨⟨2025, 1, 16⟩, 0⟩,
                    subscription_started_at := none,
                    subscription_valid_until := none },
        txns := [{ transaction_id := "TXN_1", status := .pending, amount := 4999,
                   razorpay_order_id := some "order_1", razorpay_payment_id := none,
                   razorpay_signature := none, completed_at := none }],
        subs := [], history := [] }).1
      = { center := { is_active := true, trial_ends_at := some ⟨⟨2025, 1, 16⟩, 0⟩,
                      subscription_started_at := none,
                      subscription_valid_until := none },
          txns := [{ transaction_id := "TXN_1", status := .pending, amount := 4999,
                     razorpay_order_id := some "order_1", razorpay_payment_id := none,
                     razorpay_signature := none, completed_at := none }],
          subs := [], history := [] } :=
  (c4_atomic_rollback _ "order_1" "pay_1" "sig_1" ⟨⟨2025, 3, 15⟩, 0⟩ .persistExpiry
    { transaction_id := "TXN_1", status := .pending, amount := 4999,
      razorpay_order_id := some "order_1", razorpay_payment_id := none,
      razorpay_signature := none, completed_at := none }
    (by decide)).1

/-- C9 counterexample: a successful `verify_payment_and_extend` leaves a
still-open trial-status `Subscription` record untouched — the only code that
marks trial records expired is `activate_subscription` (views.py:433-437),
which this payment path never calls. -/
theorem c9_counterexample :
    ((verify_payment_and_extend none "order_1" "pay_1" "sig_1" ⟨⟨2025, 3, 15⟩, 0⟩
      { center := { is_active := true, trial_ends_at := some ⟨⟨2025, 1, 16⟩, 0⟩,
                    subscription_started_at := none,
                    subscription_valid_until := none },
        txns := [{ transaction_id := "TXN_1", status := .pending, amount := 4999,
                   razorpay_order_id := some "order_1", razorpay_payment_id := none,
                   razorpay_signature := none, completed_at := none }],
        subs := [{ status := .trial, started_at := ⟨⟨2025, 1, 1⟩, 0⟩,
                   expires_at := ⟨⟨2025, 1, 16⟩, 0⟩ }],
        history := [] }).2 = .ok ⟨2026, 3, 15⟩)
    ∧ ((verify_payment_and_extend none "order_1" "pay_1" "sig_1" ⟨⟨2025, 3, 15⟩, 0⟩
      { center := { is_active := true, trial_ends_at := some ⟨⟨2025, 1, 16⟩, 0⟩,
                    subscription_started_at := none,
                    subscription_valid_until := none },
        txns := [{ transaction_id := "TXN_1", status := .pending, amount := 4999,
                   razorpay_order_id := some "order_1", razorpay_payment_id := none,
                   razorpay_signature := none, completed_at := none }],
        subs := [{ status := .trial, started_at := ⟨⟨2025, 1, 1⟩, 0⟩,
                   expires_at := ⟨⟨2025, 1, 16⟩, 0⟩ }],
        history := [] }).1.subs
      = [{ status := .trial, started_at := ⟨⟨2025, 1, 1⟩, 0⟩,
           expires_at := ⟨⟨2025, 1, 16⟩, 0⟩ }]) := by
  exact ⟨rfl, rfl⟩

/-- C9 amended: the payment-confirmation path leaves the tenant's
`Subscription` records unchanged (trial records are not superseded there);
marking trial records expired happens only in `activate_subscription`,
after which no record of the tenant is left in trial status. -/
theorem c9_superseding_only_in_activation (db : DB)
    (orderRef payRef sigRef : String) (now : DateTime) (dm : Nat) :
    (verify_payment_and_extend none orderRef payRef sigRef now db).1.subs = db.subs
    ∧ (activate_subscription db now dm).subs.all
        (fun sub => sub.status != SubStatus.trial) = true := by
  constructor
  · cases hfind : findPendingTxn db.txns orderRef with
    | none => rw [verify_error_of_find_none none orderRef payRef sigRef now db hfind]
    | some t0 => rw [verify_none_success db orderRef payRef sigRef now t0 hfind]
  · rw [List.all_eq_true]
    intro sub hsub
    unfold activate_subscription at hsub
    rcases List.mem_map.mp hsub with ⟨x, _, rfl⟩
    by_cases hx : (x.status == SubStatus.trial) = true
    · simp [hx]
    · simp only [hx, if_neg, Bool.if_false_left]
      simpa [bne] using hx
